import Mathlib

/-!
Verification of the a11yfox audit batch script (src/audit.mjs).

The script reads URLs from a CSV, normalizes them, and for each URL runs a
Lighthouse accessibility audit through a headless browser with a bounded
retry policy, streaming one result row per URL to an output CSV.

The shallow embedding below mirrors the source:
* `loadUrls` / `normalizeUrl` — the csv data handler (lines 18-27);
* `runLighthouseAudit` — the audit runner (lines 74-113), with the
  browser-session environment abstracted as `BrowserEnv` and the
  try/finally teardown modelled by `tryFinallyEv`;
* `auditLoop` — the retry loop (lines 46-64);
* `processUrl` / `orchestrate` — the per-URL orchestration (lines 36-67).
Waits, audit-runner invocations, browser launch/teardown and result-row
writes are recorded as an event trace (`Ev`) so that counting and ordering
properties can be stated.
-/

deriving instance DecidableEq for Except

/-- Constant `maxRetries` from line 9 of the source. -/
def maxRetries : Nat := 3

/-- The exact timeout message from line 98 of the source. -/
def timeoutMessage : String := "Lighthouse audit timed out"

/-- The object returned by a successful `runLighthouseAudit` (lines 102-106). -/
structure AuditResult where
  score : Rat
  metaTitle : String
  metaDescription : String
deriving DecidableEq, Repr

/-- Abstraction of what the browser session and the Lighthouse library do
for one invocation of `runLighthouseAudit`: the outcome of `page.goto`,
the page title, the outcome of the meta-description `$eval`, whether the
60-second timer wins the `Promise.race`, and the Lighthouse result
(its accessibility score is a fraction in [0,1]). -/
structure BrowserEnv where
  nav : Except String Unit
  pageTitle : String
  metaDesc : Except String String
  lighthouseTimesOut : Bool
  lighthouseResult : Except String Rat
deriving Repr

/-- One result row written by `csvStream.write` (line 66). The `score`
is `none` only if the retry loop never assigned it (unreachable with
`maxRetries = 3`, but the JS variable starts out `undefined`). -/
structure OutRow where
  url : String
  score : Option Rat
  metaTitle : String
  metaDescription : String
deriving DecidableEq, Repr

/-- State of the per-URL mutable variables `score`, `metaTitle`,
`metaDescription` (lines 42-44). -/
structure UrlState where
  score : Option Rat
  metaTitle : String
  metaDescription : String
deriving DecidableEq, Repr

/-- Observable events of a run: `setTimeout` waits, invocations of the
audit runner, browser launch/close, and result-row writes. -/
inductive Ev where
  | sleep (ms : Nat)
  | attemptStart (url : String) (attempt : Nat)
  | browserLaunch (url : String)
  | browserClose (url : String)
  | record (row : OutRow)
deriving DecidableEq, Repr

/-- JavaScript `a || b` on strings: the empty string is falsy
(used in `metaTitle || 'N/A'`, lines 57-58). -/
def jsOr (s fallback : String) : String :=
  if s = "" then fallback else s

/-- JavaScript try/finally over an exception-returning body: the finally
events happen after the body whether it returned or threw. -/
def tryFinallyEv {α : Type} (body : Except String α × List Ev)
    (fin : List Ev) : Except String α × List Ev :=
  (body.1, body.2 ++ fin)

/-- The try-block of `runLighthouseAudit` (lines 78-109): navigate, extract
metadata (meta-description failure is caught and replaced by the fallback
string), then race Lighthouse against the timeout timer; a successful
audit reports the accessibility fraction times 100. -/
def auditBody (env : BrowserEnv) : Except String AuditResult :=
  match env.nav with
  | Except.error msg => Except.error msg
  | Except.ok _ =>
    let metaTitle := env.pageTitle
    let metaDescription :=
      match env.metaDesc with
      | Except.ok d => d
      | Except.error _ => "No meta description"
    if env.lighthouseTimesOut then
      Except.error timeoutMessage
    else
      match env.lighthouseResult with
      | Except.error msg => Except.error msg
      | Except.ok frac =>
          Except.ok ⟨frac * 100, metaTitle, metaDescription⟩

/-- `runLighthouseAudit` (lines 74-113): launch a browser, run the body,
and close the browser in a `finally` on every exit path. -/
def runLighthouseAudit (env : BrowserEnv) (url : String) :
    Except String AuditResult × List Ev :=
  tryFinallyEv (auditBody env, [Ev.browserLaunch url]) [Ev.browserClose url]

/-- The retry loop of the orchestrator (lines 46-64): for
`attempt = 1..maxRetries`, invoke the audit runner; on success assign all
three variables and break; on failure, if `attempt === maxRetries` or
(`attempt === 2` and the message is exactly the timeout string), record
the sentinel and break, otherwise wait 3 seconds and retry. -/
def auditLoop (env : Nat → BrowserEnv) (url : String) (attempt : Nat)
    (score : Option Rat) (metaTitle metaDescription : String) :
    UrlState × List Ev :=
  if h : attempt ≤ maxRetries then
    match (runLighthouseAudit (env attempt) url).1 with
    | Except.ok r =>
        (⟨some r.score, r.metaTitle, r.metaDescription⟩,
          Ev.attemptStart url attempt :: (runLighthouseAudit (env attempt) url).2)
    | Except.error msg =>
        if hcond : attempt = maxRetries ∨ (attempt = 2 ∧ msg = timeoutMessage) then
          (⟨some 0, jsOr metaTitle "N/A", jsOr metaDescription "N/A"⟩,
            Ev.attemptStart url attempt :: (runLighthouseAudit (env attempt) url).2)
        else
          let rest := auditLoop env url (attempt + 1) score metaTitle metaDescription
          (rest.1,
            Ev.attemptStart url attempt :: (runLighthouseAudit (env attempt) url).2
              ++ Ev.sleep 3000 :: rest.2)
  else (⟨score, metaTitle, metaDescription⟩, [])
termination_by maxRetries + 1 - attempt
decreasing_by
  have hne : attempt ≠ maxRetries := fun he => hcond (Or.inl he)
  omega

/-- Per-URL processing in the orchestrator loop (lines 36-66): a 3-second
courtesy wait, the retry loop starting from attempt 1 with `score`
undefined and both metadata variables empty, then one `csvStream.write`. -/
def processUrl (env : Nat → BrowserEnv) (url : String) : OutRow × List Ev :=
  let r := auditLoop env url 1 none "" ""
  let row : OutRow := ⟨url, r.1.score, r.1.metaTitle, r.1.metaDescription⟩
  (row, Ev.sleep 3000 :: r.2 ++ [Ev.record row])

/-- The orchestrator (lines 36-67): process the loaded URLs strictly in
order, appending each URL's events and its single result row. -/
def orchestrate (env : String → Nat → BrowserEnv) :
    List String → List OutRow × List Ev
  | [] => ([], [])
  | u :: rest =>
    let p := processUrl (env u) u
    let o := orchestrate env rest
    (p.1 :: o.1, p.2 ++ o.2)

/-- JavaScript `String.prototype.trim` modelled on the character list:
drop whitespace from both ends (line 21). -/
def trimChars (cs : List Char) : List Char :=
  ((cs.dropWhile Char.isWhitespace).reverse.dropWhile Char.isWhitespace).reverse

/-- Trim of a string, via its character list. -/
def jsTrim (s : String) : String := String.mk (trimChars s.data)

/-- Character-list prefix test (left argument is the candidate prefix). -/
def isPrefixList : List Char → List Char → Bool
  | [], _ => true
  | _ :: _, [] => false
  | c :: cs, d :: ds => c = d && isPrefixList cs ds

/-- The scheme test of line 22: the regex `^https?:\/\//i`, i.e. the
string starts with `http://` or `https://` up to letter case. -/
def hasScheme (s : String) : Bool :=
  isPrefixList "http://".data (s.data.map Char.toLower) ||
  isPrefixList "https://".data (s.data.map Char.toLower)

/-- URL normalization of lines 21-24: trim whitespace, and prepend
`http://` when the trimmed value carries no scheme. -/
def normalizeUrl (raw : String) : String :=
  let formattedUrl := jsTrim raw
  if hasScheme formattedUrl then formattedUrl else "http://" ++ formattedUrl

/-- The csv data handler (lines 18-27): each row's optional `url` field is
kept only when present and truthy (non-empty), then normalized, in input
order. -/
def loadUrls : List (Option String) → List String
  | [] => []
  | none :: rest => loadUrls rest
  | some u :: rest =>
    if u = "" then loadUrls rest else normalizeUrl u :: loadUrls rest

/-- Number of audit-runner invocations recorded in a trace. -/
def invokeCount : List Ev → Nat
  | [] => 0
  | Ev.attemptStart _ _ :: rest => invokeCount rest + 1
  | _ :: rest => invokeCount rest

/-- Number of browser-session teardowns recorded in a trace. -/
def closeCount : List Ev → Nat
  | [] => 0
  | Ev.browserClose _ :: rest => closeCount rest + 1
  | _ :: rest => closeCount rest

/-- A browser environment where navigation succeeds but the 60-second
timer always wins the race: the attempt fails with the timeout message. -/
def timeoutEnv : BrowserEnv := ⟨Except.ok (), "", Except.ok "", true, Except.ok 0⟩

/-- A browser environment where navigation fails outright with a
non-timeout message. -/
def failEnv : BrowserEnv :=
  ⟨Except.error "net::ERR_CONNECTION_REFUSED", "", Except.ok "", false, Except.ok 0⟩

/-- A browser environment where everything succeeds and Lighthouse reports
an accessibility fraction of 0.87, i.e. a score of 87. -/
def successEnv : BrowserEnv :=
  ⟨Except.ok (), "Example Domain", Except.ok "An example page", false,
    Except.ok (87 / 100)⟩

/-- Attempt schedule that fails on navigation for attempts 1 and 2 and
then fully succeeds with score 87. -/
def c5Env : Nat → BrowserEnv := fun n => if n ≤ 2 then failEnv else successEnv

/-- Attempt schedule whose first failure is not a timeout but whose second
failure is the audit timeout. -/
def c9Env : Nat → BrowserEnv := fun n => if n = 1 then failEnv else timeoutEnv

/-- Per-URL attempt schedule in which every attempt fails on navigation. -/
def allFailEnv : String → Nat → BrowserEnv := fun _ _ => failEnv

/-! ### Helper lemmas -/

@[simp] theorem invokeCount_nil : invokeCount [] = 0 := rfl

@[simp] theorem invokeCount_attempt (u : String) (n : Nat) (rest : List Ev) :
    invokeCount (Ev.attemptStart u n :: rest) = invokeCount rest + 1 := rfl

@[simp] theorem invokeCount_sleep (ms : Nat) (rest : List Ev) :
    invokeCount (Ev.sleep ms :: rest) = invokeCount rest := rfl

@[simp] theorem invokeCount_launch (u : String) (rest : List Ev) :
    invokeCount (Ev.browserLaunch u :: rest) = invokeCount rest := rfl

@[simp] theorem invokeCount_close (u : String) (rest : List Ev) :
    invokeCount (Ev.browserClose u :: rest) = invokeCount rest := rfl

@[simp] theorem invokeCount_row (row : OutRow) (rest : List Ev) :
    invokeCount (Ev.record row :: rest) = invokeCount rest := rfl

@[simp] theorem closeCount_nil : closeCount [] = 0 := rfl

@[simp] theorem closeCount_attempt (u : String) (n : Nat) (rest : List Ev) :
    closeCount (Ev.attemptStart u n :: rest) = closeCount rest := rfl

@[simp] theorem closeCount_sleep (ms : Nat) (rest : List Ev) :
    closeCount (Ev.sleep ms :: rest) = closeCount rest := rfl

@[simp] theorem closeCount_launch (u : String) (rest : List Ev) :
    closeCount (Ev.browserLaunch u :: rest) = closeCount rest := rfl

@[simp] theorem closeCount_close (u : String) (rest : List Ev) :
    closeCount (Ev.browserClose u :: rest) = closeCount rest + 1 := rfl

@[simp] theorem closeCount_row (row : OutRow) (rest : List Ev) :
    closeCount (Ev.record row :: rest) = closeCount rest := rfl

@[simp] theorem invokeCount_append (a b : List Ev) :
    invokeCount (a ++ b) = invokeCount a + invokeCount b := by
  induction a with
  | nil => simp
  | cons e rest ih => cases e <;> simp [ih] <;> omega

@[simp] theorem closeCount_append (a b : List Ev) :
    closeCount (a ++ b) = closeCount a + closeCount b := by
  induction a with
  | nil => simp
  | cons e rest ih => cases e <;> simp [ih] <;> omega

@[simp] theorem runLighthouseAudit_trace (env : BrowserEnv) (url : String) :
    (runLighthouseAudit env url).2 =
      [Ev.browserLaunch url, Ev.browserClose url] := rfl

theorem auditLoop_ok (env : Nat → BrowserEnv) (url : String) (attempt : Nat)
    (s : Option Rat) (mt md : String) (r : AuditResult)
    (h : attempt ≤ maxRetries)
    (hr : (runLighthouseAudit (env attempt) url).1 = Except.ok r) :
    auditLoop env url attempt s mt md =
      (⟨some r.score, r.metaTitle, r.metaDescription⟩,
        [Ev.attemptStart url attempt, Ev.browserLaunch url, Ev.browserClose url]) := by
  rw [auditLoop, dif_pos h]
  split
  · rename_i r2 heq
    rw [hr] at heq
    injection heq with h2
    subst h2
    rfl
  · rename_i msg heq
    rw [hr] at heq
    cases heq

theorem auditLoop_exhaust (env : Nat → BrowserEnv) (url : String) (attempt : Nat)
    (s : Option Rat) (mt md : String) (msg : String)
    (h : attempt ≤ maxRetries)
    (hr : (runLighthouseAudit (env attempt) url).1 = Except.error msg)
    (hc : attempt = maxRetries ∨ (attempt = 2 ∧ msg = timeoutMessage)) :
    auditLoop env url attempt s mt md =
      (⟨some 0, jsOr mt "N/A", jsOr md "N/A"⟩,
        [Ev.attemptStart url attempt, Ev.browserLaunch url, Ev.browserClose url]) := by
  rw [auditLoop, dif_pos h]
  split
  · rename_i r2 heq
    rw [hr] at heq
    cases heq
  · rename_i m heq
    rw [hr] at heq
    injection heq with h2
    subst h2
    rw [dif_pos hc]
    rfl

theorem auditLoop_retry (env : Nat → BrowserEnv) (url : String) (attempt : Nat)
    (s : Option Rat) (mt md : String) (msg : String)
    (h : attempt ≤ maxRetries)
    (hr : (runLighthouseAudit (env attempt) url).1 = Except.error msg)
    (hc : ¬(attempt = maxRetries ∨ (attempt = 2 ∧ msg = timeoutMessage))) :
    auditLoop env url attempt s mt md =
      ((auditLoop env url (attempt + 1) s mt md).1,
        Ev.attemptStart url attempt :: Ev.browserLaunch url :: Ev.browserClose url
          :: Ev.sleep 3000 :: (auditLoop env url (attempt + 1) s mt md).2) := by
  rw [auditLoop, dif_pos h]
  split
  · rename_i r2 heq
    rw [hr] at heq
    cases heq
  · rename_i m heq
    rw [hr] at heq
    injection heq with h2
    subst h2
    rw [dif_neg hc]
    rfl

theorem loop_ok_at_two (env : Nat → BrowserEnv) (url m1 : String) (r : AuditResult)
    (h1 : (runLighthouseAudit (env 1) url).1 = Except.error m1)
    (h2 : (runLighthouseAudit (env 2) url).1 = Except.ok r) :
    auditLoop env url 1 none "" "" =
      (⟨some r.score, r.metaTitle, r.metaDescription⟩,
        [Ev.attemptStart url 1, Ev.browserLaunch url, Ev.browserClose url,
         Ev.sleep 3000,
         Ev.attemptStart url 2, Ev.browserLaunch url, Ev.browserClose url]) := by
  rw [auditLoop_retry env url 1 none "" "" m1 (by decide) h1 (by simp [maxRetries]),
      auditLoop_ok env url 2 none "" "" r (by decide) h2]

theorem loop_timeout_at_two (env : Nat → BrowserEnv) (url m1 : String)
    (h1 : (runLighthouseAudit (env 1) url).1 = Except.error m1)
    (h2 : (runLighthouseAudit (env 2) url).1 = Except.error timeoutMessage) :
    auditLoop env url 1 none "" "" =
      (⟨some 0, "N/A", "N/A"⟩,
        [Ev.attemptStart url 1, Ev.browserLaunch url, Ev.browserClose url,
         Ev.sleep 3000,
         Ev.attemptStart url 2, Ev.browserLaunch url, Ev.browserClose url]) := by
  rw [auditLoop_retry env url 1 none "" "" m1 (by decide) h1 (by simp [maxRetries]),
      auditLoop_exhaust env url 2 none "" "" timeoutMessage (by decide) h2
        (Or.inr ⟨rfl, rfl⟩)]
  rfl

theorem loop_fail_three (env : Nat → BrowserEnv) (url m1 m2 m3 : String)
    (h1 : (runLighthouseAudit (env 1) url).1 = Except.error m1)
    (h2 : (runLighthouseAudit (env 2) url).1 = Except.error m2)
    (hm2 : m2 ≠ timeoutMessage)
    (h3 : (runLighthouseAudit (env 3) url).1 = Except.error m3) :
    auditLoop env url 1 none "" "" =
      (⟨some 0, "N/A", "N/A"⟩,
        [Ev.attemptStart url 1, Ev.browserLaunch url, Ev.browserClose url,
         Ev.sleep 3000,
         Ev.attemptStart url 2, Ev.browserLaunch url, Ev.browserClose url,
         Ev.sleep 3000,
         Ev.attemptStart url 3, Ev.browserLaunch url, Ev.browserClose url]) := by
  have hc2 : ¬(2 = maxRetries ∨ (2 = 2 ∧ m2 = timeoutMessage)) := by
    rintro (h | ⟨-, h⟩)
    · exact absurd h (by decide)
    · exact hm2 h
  rw [auditLoop_retry env url 1 none "" "" m1 (by decide) h1 (by simp [maxRetries]),
      auditLoop_retry env url 2 none "" "" m2 (by decide) h2 hc2,
      auditLoop_exhaust env url 3 none "" "" m3 (by decide) h3 (Or.inl rfl)]
  rfl

theorem loop_ok_at_three (env : Nat → BrowserEnv) (url m1 m2 : String)
    (r : AuditResult)
    (h1 : (runLighthouseAudit (env 1) url).1 = Except.error m1)
    (h2 : (runLighthouseAudit (env 2) url).1 = Except.error m2)
    (hm2 : m2 ≠ timeoutMessage)
    (h3 : (runLighthouseAudit (env 3) url).1 = Except.ok r) :
    auditLoop env url 1 none "" "" =
      (⟨some r.score, r.metaTitle, r.metaDescription⟩,
        [Ev.attemptStart url 1, Ev.browserLaunch url, Ev.browserClose url,
         Ev.sleep 3000,
         Ev.attemptStart url 2, Ev.browserLaunch url, Ev.browserClose url,
         Ev.sleep 3000,
         Ev.attemptStart url 3, Ev.browserLaunch url, Ev.browserClose url]) := by
  have hc2 : ¬(2 = maxRetries ∨ (2 = 2 ∧ m2 = timeoutMessage)) := by
    rintro (h | ⟨-, h⟩)
    · exact absurd h (by decide)
    · exact hm2 h
  rw [auditLoop_retry env url 1 none "" "" m1 (by decide) h1 (by simp [maxRetries]),
      auditLoop_retry env url 2 none "" "" m2 (by decide) h2 hc2,
      auditLoop_ok env url 3 none "" "" r (by decide) h3]

theorem loop_exhaust_general (env : Nat → BrowserEnv) (url m1 m2 : String)
    (h1 : (runLighthouseAudit (env 1) url).1 = Except.error m1)
    (h2 : (runLighthouseAudit (env 2) url).1 = Except.error m2)
    (hex : m2 = timeoutMessage ∨
      ∃ m3, (runLighthouseAudit (env 3) url).1 = Except.error m3) :
    (auditLoop env url 1 none "" "").1 = ⟨some 0, "N/A", "N/A"⟩ := by
  by_cases hm2 : m2 = timeoutMessage
  · subst hm2
    rw [loop_timeout_at_two env url m1 h1 h2]
  · rcases hex with he | ⟨m3, h3⟩
    · exact absurd he hm2
    · rw [loop_fail_three env url m1 m2 m3 h1 h2 hm2 h3]

theorem processUrl_eq (env : Nat → BrowserEnv) (url : String) :
    processUrl env url =
      (⟨url, (auditLoop env url 1 none "" "").1.score,
          (auditLoop env url 1 none "" "").1.metaTitle,
          (auditLoop env url 1 none "" "").1.metaDescription⟩,
        Ev.sleep 3000 :: (auditLoop env url 1 none "" "").2
          ++ [Ev.record ⟨url, (auditLoop env url 1 none "" "").1.score,
              (auditLoop env url 1 none "" "").1.metaTitle,
              (auditLoop env url 1 none "" "").1.metaDescription⟩]) := rfl

theorem processUrl_url (env : Nat → BrowserEnv) (url : String) :
    (processUrl env url).1.url = url := rfl

theorem orchestrate_cons (env : String → Nat → BrowserEnv) (u : String)
    (rest : List String) :
    orchestrate env (u :: rest) =
      ((processUrl (env u) u).1 :: (orchestrate env rest).1,
        (processUrl (env u) u).2 ++ (orchestrate env rest).2) := rfl

theorem orchestrate_map_url (env : String → Nat → BrowserEnv)
    (urls : List String) :
    (orchestrate env urls).1.map OutRow.url = urls := by
  induction urls with
  | nil => rfl
  | cons u rest ih => simp [orchestrate_cons, processUrl_url, ih]

theorem orchestrate_length (env : String → Nat → BrowserEnv)
    (urls : List String) :
    (orchestrate env urls).1.length = urls.length := by
  have h := congrArg List.length (orchestrate_map_url env urls)
  simpa using h

theorem auditLoop_close_eq_invoke (env : Nat → BrowserEnv) (url : String) :
    closeCount (auditLoop env url 1 none "" "").2 =
      invokeCount (auditLoop env url 1 none "" "").2 := by
  cases h1 : (runLighthouseAudit (env 1) url).1 with
  | ok r1 =>
    rw [auditLoop_ok env url 1 none "" "" r1 (by decide) h1]
    simp
  | error m1 =>
    cases h2 : (runLighthouseAudit (env 2) url).1 with
    | ok r2 =>
      rw [loop_ok_at_two env url m1 r2 h1 h2]
      simp
    | error m2 =>
      by_cases hm2 : m2 = timeoutMessage
      · subst hm2
        rw [loop_timeout_at_two env url m1 h1 h2]
        simp
      · cases h3 : (runLighthouseAudit (env 3) url).1 with
        | ok r3 =>
          rw [loop_ok_at_three env url m1 m2 r3 h1 h2 hm2 h3]
          simp
        | error m3 =>
          rw [loop_fail_three env url m1 m2 m3 h1 h2 hm2 h3]
          simp

/-! ### Claim theorems -/

/-- C1: In the retry loop, for any attempt n with 1 ≤ n ≤ maxRetries, a
failed attempt transitions to the exhausted sentinel if and only if n = 3,
or n = 2 and the failure message is exactly "Lighthouse audit timed out";
on every other failure the loop sleeps 3000 ms and proceeds to attempt
n + 1; and a successful attempt stops retrying immediately. -/
theorem retry_transition_characterization (env : Nat → BrowserEnv)
    (url : String) (n : Nat) (s : Option Rat) (mt md : String)
    (hlo : 1 ≤ n) (hhi : n ≤ maxRetries) :
    (∀ msg, (runLighthouseAudit (env n) url).1 = Except.error msg →
      ((n = 3 ∨ (n = 2 ∧ msg = timeoutMessage)) →
        auditLoop env url n s mt md =
          (⟨some 0, jsOr mt "N/A", jsOr md "N/A"⟩,
            [Ev.attemptStart url n, Ev.browserLaunch url, Ev.browserClose url])) ∧
      (¬(n = 3 ∨ (n = 2 ∧ msg = timeoutMessage)) →
        auditLoop env url n s mt md =
          ((auditLoop env url (n + 1) s mt md).1,
            Ev.attemptStart url n :: Ev.browserLaunch url :: Ev.browserClose url
              :: Ev.sleep 3000 :: (auditLoop env url (n + 1) s mt md).2))) ∧
    (∀ r, (runLighthouseAudit (env n) url).1 = Except.ok r →
      auditLoop env url n s mt md =
        (⟨some r.score, r.metaTitle, r.metaDescription⟩,
          [Ev.attemptStart url n, Ev.browserLaunch url, Ev.browserClose url])) := by
  refine ⟨fun msg hmsg => ⟨fun hc => ?_, fun hc => ?_⟩, fun r hr => ?_⟩
  · exact auditLoop_exhaust env url n s mt md msg hhi hmsg hc
  · exact auditLoop_retry env url n s mt md msg hhi hmsg hc
  · exact auditLoop_ok env url n s mt md r hhi hr

/-- Witness for C1: at attempt 2 with a timeout failure the loop records
the exhausted sentinel and stops. -/
theorem retry_transition_characterization_witness :
    (1 ≤ 2 ∧ 2 ≤ maxRetries) ∧
    auditLoop (fun _ => timeoutEnv) "http://example.com" 2 none "" "" =
      (⟨some 0, "N/A", "N/A"⟩,
        [Ev.attemptStart "http://example.com" 2,
         Ev.browserLaunch "http://example.com",
         Ev.browserClose "http://example.com"]) := by
  refine ⟨⟨by decide, by decide⟩, ?_⟩
  have h := ((retry_transition_characterization (fun _ => timeoutEnv)
      "http://example.com" 2 none "" "" (by decide) (by decide)).1
      timeoutMessage rfl).1 (Or.inr ⟨rfl, rfl⟩)
  exact h

/-- C2: if the audit runner fails with the timeout message on every
attempt, the retry loop invokes it exactly 2 times (not 3) and records the
exhausted sentinel row. -/
theorem timeout_exhausts_after_two (env : Nat → BrowserEnv) (url : String)
    (h : ∀ n, 1 ≤ n → n ≤ maxRetries →
      (runLighthouseAudit (env n) url).1 = Except.error timeoutMessage) :
    invokeCount (processUrl env url).2 = 2 ∧
    (processUrl env url).1 = ⟨url, some 0, "N/A", "N/A"⟩ := by
  have hl := loop_timeout_at_two env url timeoutMessage
    (h 1 (by decide) (by decide)) (h 2 (by decide) (by decide))
  rw [processUrl_eq, hl]
  exact ⟨by simp, rfl⟩

/-- Witness for C2: with the always-timing-out environment, exactly two
invocations occur and the sentinel row is recorded. -/
theorem timeout_exhausts_after_two_witness :
    invokeCount (processUrl (fun _ => timeoutEnv) "http://example.com").2 = 2 ∧
    (processUrl (fun _ => timeoutEnv) "http://example.com").1 =
      ⟨"http://example.com", some 0, "N/A", "N/A"⟩ :=
  timeout_exhausts_after_two (fun _ => timeoutEnv) "http://example.com"
    (fun _ _ _ => rfl)

/-- C3 counterexample: for a URL whose three attempts all fail on
navigation, browser teardown runs three times for that one URL, not once. -/
theorem teardown_thrice_for_failing_url :
    closeCount (processUrl (fun _ => failEnv) "http://example.com").2 = 3 ∧
    closeCount (processUrl (fun _ => failEnv) "http://example.com").2 ≠ 1 := by
  have hl := loop_fail_three (fun _ => failEnv) "http://example.com"
    "net::ERR_CONNECTION_REFUSED" "net::ERR_CONNECTION_REFUSED"
    "net::ERR_CONNECTION_REFUSED" rfl rfl (by decide) rfl
  rw [processUrl_eq, hl]
  refine ⟨by simp, by simp⟩

/-- C3 (amended): browser teardown is invoked exactly once per
audit-runner invocation, guaranteed on every exit path; per URL it
therefore runs once per attempt — as many times as the runner was
invoked — and exactly once when the first attempt succeeds. -/
theorem teardown_once_per_invocation (benv : BrowserEnv) (burl : String)
    (env : Nat → BrowserEnv) (url : String) (r : AuditResult) :
    closeCount (runLighthouseAudit benv burl).2 = 1 ∧
    closeCount (processUrl env url).2 = invokeCount (processUrl env url).2 ∧
    ((runLighthouseAudit (env 1) url).1 = Except.ok r →
      closeCount (processUrl env url).2 = 1) := by
  refine ⟨by simp, ?_, fun hok => ?_⟩
  · rw [processUrl_eq]
    simp [auditLoop_close_eq_invoke env url]
  · rw [processUrl_eq, auditLoop_ok env url 1 none "" "" r (by decide) hok]
    simp

/-- Witness for C3 (amended): with a first attempt that succeeds, the URL
sees exactly one teardown. -/
theorem teardown_once_per_invocation_witness :
    closeCount (runLighthouseAudit successEnv "http://example.com").2 = 1 ∧
    closeCount (processUrl (fun _ => successEnv) "http://example.com").2 =
      invokeCount (processUrl (fun _ => successEnv) "http://example.com").2 ∧
    closeCount (processUrl (fun _ => successEnv) "http://example.com").2 = 1 := by
  have h := teardown_once_per_invocation successEnv "http://example.com"
    (fun _ => successEnv) "http://example.com"
    ⟨87 / 100 * 100, "Example Domain", "An example page"⟩
  exact ⟨h.1, h.2.1, h.2.2 rfl⟩

/-- C4: if the audit runner fails on every attempt with a message
different from the timeout string, the retry loop invokes it exactly 3
times before recording the exhausted sentinel row. -/
theorem nontimeout_failures_invoke_thrice (env : Nat → BrowserEnv)
    (url : String)
    (h : ∀ n, 1 ≤ n → n ≤ maxRetries →
      ∃ m, (runLighthouseAudit (env n) url).1 = Except.error m ∧
        m ≠ timeoutMessage) :
    invokeCount (processUrl env url).2 = 3 ∧
    (processUrl env url).1 = ⟨url, some 0, "N/A", "N/A"⟩ := by
  obtain ⟨m1, h1, -⟩ := h 1 (by decide) (by decide)
  obtain ⟨m2, h2, hm2⟩ := h 2 (by decide) (by decide)
  obtain ⟨m3, h3, -⟩ := h 3 (by decide) (by decide)
  rw [processUrl_eq, loop_fail_three env url m1 m2 m3 h1 h2 hm2 h3]
  exact ⟨by simp, rfl⟩

/-- Witness for C4: with navigation failing on every attempt, exactly
three invocations occur and the sentinel row is recorded. -/
theorem nontimeout_failures_invoke_thrice_witness :
    invokeCount (processUrl (fun _ => failEnv) "https://test.org").2 = 3 ∧
    (processUrl (fun _ => failEnv) "https://test.org").1 =
      ⟨"https://test.org", some 0, "N/A", "N/A"⟩ :=
  nontimeout_failures_invoke_thrice (fun _ => failEnv) "https://test.org"
    (fun _ _ _ => ⟨"net::ERR_CONNECTION_REFUSED", rfl, by decide⟩)

/-- C5: if the audit runner fails twice with non-timeout messages and then
succeeds on attempt 3 with score 87 and metadata, the recorded row carries
score 87 and that metadata, not the sentinel. -/
theorem success_on_third_attempt_recorded (env : Nat → BrowserEnv)
    (url m1 m2 t d : String)
    (h1 : (runLighthouseAudit (env 1) url).1 = Except.error m1)
    (hm1 : m1 ≠ timeoutMessage)
    (h2 : (runLighthouseAudit (env 2) url).1 = Except.error m2)
    (hm2 : m2 ≠ timeoutMessage)
    (h3 : (runLighthouseAudit (env 3) url).1 = Except.ok ⟨87, t, d⟩) :
    (processUrl env url).1 = ⟨url, some 87, t, d⟩ := by
  rw [processUrl_eq, loop_ok_at_three env url m1 m2 ⟨87, t, d⟩ h1 h2 hm2 h3]

/-- Witness for C5: two navigation failures followed by a successful audit
with fraction 0.87 yield a recorded row with score 87 and real metadata. -/
theorem success_on_third_attempt_recorded_witness :
    (processUrl c5Env "http://example.com").1 =
      ⟨"http://example.com", some 87, "Example Domain", "An example page"⟩ := by
  have harith : (87 : ℚ) / 100 * 100 = 87 := by norm_num
  have h3 : (runLighthouseAudit (c5Env 3) "http://example.com").1 =
      Except.ok ⟨87, "Example Domain", "An example page"⟩ := by
    show Except.ok
      (⟨(87 : ℚ) / 100 * 100, "Example Domain", "An example page"⟩ : AuditResult) = _
    rw [harith]
  exact success_on_third_attempt_recorded c5Env "http://example.com"
    "net::ERR_CONNECTION_REFUSED" "net::ERR_CONNECTION_REFUSED"
    "Example Domain" "An example page" rfl (by decide) rfl (by decide) h3

/-- C6: the loader skips rows with a missing or empty url field, trims
kept values, prepends http:// when no case-insensitive http/https scheme
is present, leaves schemed URLs unchanged, and maps the example rows to
exactly the expected two-entry sequence in order. -/
theorem loader_normalizes_and_orders :
    (∀ rest, loadUrls (none :: rest) = loadUrls rest) ∧
    (∀ rest, loadUrls (some "" :: rest) = loadUrls rest) ∧
    (∀ u rest, u ≠ "" →
      loadUrls (some u :: rest) = normalizeUrl u :: loadUrls rest) ∧
    (∀ u, hasScheme (jsTrim u) = false →
      normalizeUrl u = "http://" ++ jsTrim u) ∧
    (∀ u, hasScheme (jsTrim u) = true → normalizeUrl u = jsTrim u) ∧
    loadUrls [some "example.com", some "", some "https://test.org"] =
      ["http://example.com", "https://test.org"] := by
  refine ⟨fun rest => rfl, fun rest => rfl, fun u rest hu => ?_,
    fun u hs => ?_, fun u hs => ?_, by decide⟩
  · simp [loadUrls, hu]
  · simp [normalizeUrl, hs]
  · simp [normalizeUrl, hs]

/-- Witness for C6: a kept row normalizes with the scheme prepended, a
whitespace-padded URL is trimmed, and a schemed URL is left unchanged. -/
theorem loader_normalizes_and_orders_witness :
    (("example.com" : String) ≠ "" ∧
      loadUrls [some "example.com"] = ["http://example.com"]) ∧
    (hasScheme (jsTrim "  example.com  ") = false ∧
      normalizeUrl "  example.com  " = "http://example.com") ∧
    (hasScheme (jsTrim "HTTPS://Test.org") = true ∧
      normalizeUrl "HTTPS://Test.org" = "HTTPS://Test.org") := by
  have h := loader_normalizes_and_orders
  refine ⟨⟨by decide, ?_⟩, ⟨by decide, ?_⟩, ⟨by decide, ?_⟩⟩
  · rw [h.2.2.1 "example.com" [] (by decide)]
    decide
  · rw [h.2.2.2.1 "  example.com  " (by decide)]
    decide
  · rw [h.2.2.2.2.1 "HTTPS://Test.org" (by decide)]
    decide

/-- C7: the orchestrator produces exactly one result row per loaded URL,
in input order; each URL's trace consists of its own events ending with
its single row-write, followed by the remaining URLs' events. -/
theorem one_row_per_url_in_order (env : String → Nat → BrowserEnv)
    (urls : List String) :
    (orchestrate env urls).1.length = urls.length ∧
    (orchestrate env urls).1.map OutRow.url = urls ∧
    (∀ u rest, orchestrate env (u :: rest) =
      ((processUrl (env u) u).1 :: (orchestrate env rest).1,
        (processUrl (env u) u).2 ++ (orchestrate env rest).2)) ∧
    (∀ u, ∃ pre, (processUrl (env u) u).2 =
      pre ++ [Ev.record (processUrl (env u) u).1]) := by
  refine ⟨orchestrate_length env urls, orchestrate_map_url env urls,
    fun u rest => orchestrate_cons env u rest, fun u => ?_⟩
  exact ⟨Ev.sleep 3000 :: (auditLoop (env u) u 1 none "" "").2, rfl⟩

/-- C8: when every attempt for a URL fails, the exhausted sentinel row
(score 0, "N/A" metadata) is recorded for it and the orchestrator
proceeds to the remaining URLs; per-attempt failures are caught by the
loop and never abort the run. -/
theorem exhaustion_recorded_and_run_continues (env : String → Nat → BrowserEnv)
    (url : String) (rest : List String)
    (h : ∀ n, 1 ≤ n → n ≤ maxRetries →
      ∃ m, (runLighthouseAudit (env url n) url).1 = Except.error m) :
    (processUrl (env url) url).1 = ⟨url, some 0, "N/A", "N/A"⟩ ∧
    (orchestrate env (url :: rest)).1 =
      ⟨url, some 0, "N/A", "N/A"⟩ :: (orchestrate env rest).1 ∧
    (orchestrate env (url :: rest)).1.length = rest.length + 1 := by
  obtain ⟨m1, h1⟩ := h 1 (by decide) (by decide)
  obtain ⟨m2, h2⟩ := h 2 (by decide) (by decide)
  obtain ⟨m3, h3⟩ := h 3 (by decide) (by decide)
  have hx := loop_exhaust_general (env url) url m1 m2 h1 h2 (Or.inr ⟨m3, h3⟩)
  have hrow : (processUrl (env url) url).1 = ⟨url, some 0, "N/A", "N/A"⟩ := by
    rw [processUrl_eq, hx]
  refine ⟨hrow, ?_, ?_⟩
  · rw [orchestrate_cons, hrow]
  · rw [orchestrate_cons]
    simp [orchestrate_length]

/-- Witness for C8: with every attempt failing for the first URL, its
sentinel row is recorded and the second URL is still processed. -/
theorem exhaustion_recorded_and_run_continues_witness :
    (processUrl (allFailEnv "http://example.com") "http://example.com").1 =
      ⟨"http://example.com", some 0, "N/A", "N/A"⟩ ∧
    (orchestrate allFailEnv ["http://example.com", "https://test.org"]).1 =
      ⟨"http://example.com", some 0, "N/A", "N/A"⟩ ::
        (orchestrate allFailEnv ["https://test.org"]).1 ∧
    (orchestrate allFailEnv ["http://example.com", "https://test.org"]).1.length
      = 2 :=
  exhaustion_recorded_and_run_continues allFailEnv "http://example.com"
    ["https://test.org"] (fun _ _ _ => ⟨"net::ERR_CONNECTION_REFUSED", rfl⟩)

/-- C9: the attempt-2 timeout shortcut depends only on attempt 2's
message: any failure on attempt 1 followed by a timeout failure on
attempt 2 ends the loop after exactly 2 invocations with the sentinel;
two consecutive timeouts are not required. -/
theorem attempt_two_timeout_shortcut (env : Nat → BrowserEnv)
    (url m1 : String)
    (h1 : (runLighthouseAudit (env 1) url).1 = Except.error m1)
    (h2 : (runLighthouseAudit (env 2) url).1 = Except.error timeoutMessage) :
    invokeCount (processUrl env url).2 = 2 ∧
    (processUrl env url).1 = ⟨url, some 0, "N/A", "N/A"⟩ := by
  rw [processUrl_eq, loop_timeout_at_two env url m1 h1 h2]
  exact ⟨by simp, rfl⟩

/-- Witness for C9: a non-timeout navigation failure on attempt 1 and a
timeout on attempt 2 stop the loop after two invocations. -/
theorem attempt_two_timeout_shortcut_witness :
    ("net::ERR_CONNECTION_REFUSED" ≠ timeoutMessage) ∧
    invokeCount (processUrl c9Env "http://example.com").2 = 2 ∧
    (processUrl c9Env "http://example.com").1 =
      ⟨"http://example.com", some 0, "N/A", "N/A"⟩ := by
  have h := attempt_two_timeout_shortcut c9Env "http://example.com"
    "net::ERR_CONNECTION_REFUSED" rfl rfl
  exact ⟨by decide, h.1, h.2⟩

/-- C10: a URL whose retry loop ends exhausted always records exactly
"N/A" for both metadata fields and score 0: the metadata variables start
empty and are only assigned by a fully successful attempt. -/
theorem exhausted_rows_have_na_metadata (env : Nat → BrowserEnv)
    (url m1 m2 : String)
    (h1 : (runLighthouseAudit (env 1) url).1 = Except.error m1)
    (h2 : (runLighthouseAudit (env 2) url).1 = Except.error m2)
    (hex : m2 = timeoutMessage ∨
      ∃ m3, (runLighthouseAudit (env 3) url).1 = Except.error m3) :
    (processUrl env url).1.metaTitle = "N/A" ∧
    (processUrl env url).1.metaDescription = "N/A" ∧
    (processUrl env url).1.score = some 0 := by
  have hx := loop_exhaust_general env url m1 m2 h1 h2 hex
  rw [processUrl_eq, hx]
  exact ⟨rfl, rfl, rfl⟩

/-- Witness for C10: with navigation failing on every attempt (the page
title extracted during failed attempts never being assigned), the
exhausted row carries exactly the "N/A" sentinels. -/
theorem exhausted_rows_have_na_metadata_witness :
    (processUrl (fun _ => failEnv) "http://example.com").1.metaTitle = "N/A" ∧
    (processUrl (fun _ => failEnv) "http://example.com").1.metaDescription
      = "N/A" ∧
    (processUrl (fun _ => failEnv) "http://example.com").1.score = some 0 :=
  exhausted_rows_have_na_metadata (fun _ => failEnv) "http://example.com"
    "net::ERR_CONNECTION_REFUSED" "net::ERR_CONNECTION_REFUSED" rfl rfl
    (Or.inr ⟨"net::ERR_CONNECTION_REFUSED", rfl⟩)
